import Mathlib

/-!
Shallow embedding of the core logic of the price-comparer repository:

* the closed-form valuation function
  (src/backend/main.py, ComplexTrapModelRenamed._predict_one, lines 96-129;
   src/api/compare-addresses.py, predict_price, lines 129-158),
* the deterministic address-to-property generator
  (src/backend/data_loader.py, generate_mock_property, lines 287-382;
   src/api/compare-addresses.py, generate_mock_property, lines 62-122),
* the catalog normalizer
  (src/backend/data_loader.py, load_all_properties, lines 127-178).

Modelling conventions:

* Python float arithmetic is modelled by exact rational arithmetic over ℚ.
  Every constant appearing in the valuation formula is integral, so on the
  schema-typed integer inputs the modelled value coincides with the value
  computed in IEEE doubles.
* Python strings are modelled as lists of Unicode code points (List ℕ);
  str.lower() is modelled on the ASCII range (A-Z to a-z), matching Python
  for ASCII addresses.  String constants of the source appear through the
  conversion function strCodes.
* Python `a % b` and `xs[i % len(xs)]` with a data-dependent divisor are
  modelled as fallible operations returning Except, mirroring Python's
  ZeroDivisionError; modulo by a non-zero integer literal is modelled by
  plain Nat mod, which agrees with Python on non-negative operands, and
  Int.emod, which agrees with Python for positive divisors.
* Python `list(set(xs))` iterates a hash-based set whose element order is
  unspecified and hash-seed (hence process) dependent.  It is modelled as an
  arbitrary reordering parameter `reorder` applied to the first-occurrence
  deduplication of `xs`; a faithful instantiation is any function mapping
  each list to a permutation of itself.
-/

attribute [local semireducible] Rat.add Rat.mul Rat.sub Rat.inv

deriving instance DecidableEq for Except

namespace PriceComparer

/-! ## Valuation (src/backend/main.py and src/api/compare-addresses.py) -/

/-- The feature dictionary read by the valuation functions.  The source reads
each field with `f.get(key, default)`; a feature set is modelled with every
field present, the `.get` defaults standing in for absent keys. -/
structure Features where
  property_type : String
  lot_area : ℤ
  building_area : ℤ
  bedrooms : ℤ
  bathrooms : ℤ
  year_built : ℤ
  has_pool : Bool
  has_garage : Bool
  school_rating : ℤ
  deriving DecidableEq

/-- Python round-half-to-even of an exact rational (the behaviour of the
built-in round on a value that is exactly representable). -/
def pyRoundHalfEven (q : ℚ) : ℤ :=
  if q - ⌊q⌋ < 1/2 then ⌊q⌋
  else if 1/2 < q - ⌊q⌋ then ⌊q⌋ + 1
  else if ⌊q⌋ % 2 = 0 then ⌊q⌋ else ⌊q⌋ + 1

/-- Python round(x, 2): round half-to-even at two decimal places. -/
def pyRound2 (q : ℚ) : ℚ := (pyRoundHalfEven (q * 100) : ℚ) / 100

/-- src/backend/main.py lines 96-129, ComplexTrapModelRenamed._predict_one.
Raises ValueError unless property_type is SFH or Condo, then evaluates the
fixed linear formula, rounds to two decimals and applies the 25000 floor. -/
def predictOne (f : Features) : Except String ℚ :=
  if f.property_type ≠ "SFH" ∧ f.property_type ≠ "Condo" then
    .error "property_type must be SFH or Condo"
  else
    let areaComponent : ℚ :=
      if f.property_type = "SFH" then (f.lot_area : ℚ) * 12
      else (f.building_area : ℚ) * 220
    let typeBias : ℚ := if f.property_type = "SFH" then 65000 else 35000
    let schoolComponent : ℚ := ((max 1 (min 10 f.school_rating) : ℤ) : ℚ) * 11500
    let agePenalty : ℚ := ((max 0 (2025 - f.year_built) : ℤ) : ℚ) * 900
    let amenities : ℚ :=
      (if f.has_pool then (18000 : ℚ) else 0) +
      (if f.has_garage then (12500 : ℚ) else 0)
    let price : ℚ := 75000 + typeBias + areaComponent +
      (f.bedrooms : ℚ) * 32500 + (f.bathrooms : ℚ) * 27500 +
      schoolComponent + amenities - agePenalty
    .ok (max 25000 (pyRound2 price))

/-- src/api/compare-addresses.py lines 129-158, predict_price.  The same
formula, but with no validation: any property_type other than SFH takes the
else (Condo) branch, and the function always returns a value. -/
def predict_price (f : Features) : ℚ :=
  let areaComponent : ℚ :=
    if f.property_type = "SFH" then (f.lot_area : ℚ) * 12
    else (f.building_area : ℚ) * 220
  let typeBias : ℚ := if f.property_type = "SFH" then 65000 else 35000
  let schoolComponent : ℚ := ((max 1 (min 10 f.school_rating) : ℤ) : ℚ) * 11500
  let agePenalty : ℚ := ((max 0 (2025 - f.year_built) : ℤ) : ℚ) * 900
  let amenities : ℚ :=
    (if f.has_pool then (18000 : ℚ) else 0) +
    (if f.has_garage then (12500 : ℚ) else 0)
  let price : ℚ := 75000 + typeBias + areaComponent +
    (f.bedrooms : ℚ) * 32500 + (f.bathrooms : ℚ) * 27500 +
    schoolComponent + amenities - agePenalty
  max 25000 (pyRound2 price)

/-- The valuation formula as written in the specification (section 4.3 /
claim wording), stated independently of the source for the refinement
comparison: max(25000, round(75000 + type_bias + area*area_rate
+ bedrooms*32500 + bathrooms*27500 + clamp(1,10,school_rating)*11500
+ 18000*[has_pool] + 12500*[has_garage] - max(0, 2025-year_built)*900, 2))
with (area, area_rate, type_bias) = (lot_area, 12, 65000) for SFH and
(building_area, 220, 35000) for Condo. -/
def spec_valuation (f : Features) : ℚ :=
  let area : ℚ :=
    if f.property_type = "SFH" then (f.lot_area : ℚ) else (f.building_area : ℚ)
  let area_rate : ℚ := if f.property_type = "SFH" then 12 else 220
  let type_bias : ℚ := if f.property_type = "SFH" then 65000 else 35000
  max 25000 (pyRound2 (75000 + type_bias + area * area_rate
    + (f.bedrooms : ℚ) * 32500 + (f.bathrooms : ℚ) * 27500
    + ((max 1 (min 10 f.school_rating) : ℤ) : ℚ) * 11500
    + (if f.has_pool then (18000 : ℚ) else 0)
    + (if f.has_garage then (12500 : ℚ) else 0)
    - ((max 0 (2025 - f.year_built) : ℤ) : ℚ) * 900))

/-- The pre-floor price as a single integer: every term of the valuation
formula is an integer, which lets the rounding step be eliminated. -/
def intPrice (f : Features) : ℤ :=
  (if f.property_type = "SFH" then f.lot_area * 12 else f.building_area * 220)
  + (if f.property_type = "SFH" then 65000 else 35000)
  + 75000 + f.bedrooms * 32500 + f.bathrooms * 27500
  + (max 1 (min 10 f.school_rating)) * 11500
  + (if f.has_pool then 18000 else 0) + (if f.has_garage then 12500 else 0)
  - (max 0 (2025 - f.year_built)) * 900

/-- Replace the lot_area feature, leaving everything else fixed. -/
def setLotArea (f : Features) (a : ℤ) : Features :=
  { f with lot_area := a }

/-- Replace the building_area feature, leaving everything else fixed. -/
def setBuildingArea (f : Features) (a : ℤ) : Features :=
  { f with building_area := a }

/-- Replace the area feature that the valuation reads for the given
property type: lot_area for SFH, building_area otherwise. -/
def setArea (f : Features) (a : ℤ) : Features :=
  if f.property_type = "SFH" then setLotArea f a else setBuildingArea f a

/-- Replace the year_built feature, leaving everything else fixed. -/
def setYearBuilt (f : Features) (y : ℤ) : Features :=
  { f with year_built := y }

/-- Replace the property_type feature, leaving everything else fixed. -/
def setType (f : Features) (t : String) : Features :=
  { f with property_type := t }

/-- The section-8 scenario input of the specification. -/
def scenarioFeatures : Features :=
  ⟨"SFH", 1800, 0, 3, 2, 2005, true, true, 8⟩

/-- A feature set whose property_type is outside the {SFH, Condo} enum. -/
def mansionFeatures : Features :=
  ⟨"Mansion", 0, 0, 0, 0, 2025, false, false, 5⟩

/-! ## Python string primitives on code-point lists -/

/-- The code points of a Lean string literal, used to transport the string
constants of the source into the code-point model. -/
def strCodes (s : String) : List ℕ := s.toList.map Char.toNat

/-- Python str.lower() on one code point, modelled on the ASCII range. -/
def pyLowerChar (c : ℕ) : ℕ := if 65 ≤ c ∧ c ≤ 90 then c + 32 else c

/-- Python str.lower(), modelled on the ASCII range. -/
def pyLower (s : List ℕ) : List ℕ := s.map pyLowerChar

/-- Python str.strip() whitespace set (ASCII part). -/
def isPySpace (c : ℕ) : Bool :=
  c = 32 ∨ c = 9 ∨ c = 10 ∨ c = 13 ∨ c = 11 ∨ c = 12

/-- Python str.strip(): drop leading and trailing whitespace. -/
def pyStrip (s : List ℕ) : List ℕ :=
  ((s.dropWhile isPySpace).reverse.dropWhile isPySpace).reverse

/-- Python substring containment, `needle in haystack`. -/
def pyContains (needle : List ℕ) : List ℕ → Bool
  | [] => needle.isEmpty
  | c :: rest => needle.isPrefixOf (c :: rest) || pyContains needle rest

/-- Python s.split(","): split at code point 44, keeping empty segments. -/
def pySplitComma : List ℕ → List (List ℕ)
  | [] => [[]]
  | c :: rest =>
    let r := pySplitComma rest
    if c = 44 then [] :: r
    else
      match r with
      | [] => [[c]]
      | x :: xs => (c :: x) :: xs

/-- Python xs[-2:]: the last two elements (all of them when fewer). -/
def lastTwo (xs : List (List ℕ)) : List (List ℕ) := xs.drop (xs.length - 2)

/-- Python ", ".join(part.strip() for part in parts). -/
def joinCommaSpace (parts : List (List ℕ)) : List ℕ :=
  List.intercalate (strCodes ", ") (parts.map pyStrip)

/-- Python a % b on naturals: ZeroDivisionError when the divisor is 0. -/
def pymod (a b : ℕ) : Except String ℕ :=
  if b = 0 then .error "integer modulo by zero" else .ok (a % b)

/-- Python xs[n % len(xs)]: ZeroDivisionError when the list is empty, and
otherwise the element at index n mod length (always in range). -/
def pyIdx {α : Type} : List α → ℕ → Except String α
  | [], _ => .error "integer modulo by zero"
  | x :: rest, n => .ok ((x :: rest).getD (n % (rest.length + 1)) x)

/-- First-occurrence deduplication, the canonical element list of a Python
set built by inserting the elements of the argument in order. -/
def pyDedupAux (seen : List String) : List String → List String
  | [] => []
  | x :: rest =>
    if x ∈ seen then pyDedupAux seen rest
    else x :: pyDedupAux (x :: seen) rest

/-- Canonical order of `list(set(xs))`; the actual order Python produces is
an unspecified permutation of this list (see the reorder parameter). -/
def pyDedup (xs : List String) : List String := pyDedupAux [] xs

/-- Python int() truncation toward zero of an exact rational. -/
def pyInt (q : ℚ) : ℤ := if q < 0 then -⌊-q⌋ else ⌊q⌋

/-! ## Deterministic generator (src/backend/data_loader.py lines 227-382) -/

/-- One Market Profile row of CITY_DATA. -/
structure CityInfo where
  avg_price : ℕ
  school : ℤ
  ptype : String
  sqft_min : ℕ
  sqft_max : ℕ
  deriving DecidableEq

/-- src/backend/data_loader.py lines 244-259 (identical to
src/api/compare-addresses.py lines 22-37): the city market profiles in the
fixed insertion order of the source dict. -/
def CITY_DATA : List (String × CityInfo) :=
  [("new york", ⟨850000, 8, "Condo", 800, 2000⟩),
   ("manhattan", ⟨1200000, 9, "Condo", 600, 1800⟩),
   ("brooklyn", ⟨750000, 7, "Condo", 900, 2200⟩),
   ("los angeles", ⟨950000, 7, "SFH", 1500, 3500⟩),
   ("san francisco", ⟨1400000, 9, "Condo", 800, 2000⟩),
   ("miami", ⟨550000, 6, "Condo", 1000, 2500⟩),
   ("chicago", ⟨450000, 7, "Condo", 1000, 2200⟩),
   ("boston", ⟨750000, 9, "Condo", 800, 1800⟩),
   ("seattle", ⟨800000, 8, "SFH", 1200, 2800⟩),
   ("austin", ⟨550000, 8, "SFH", 1500, 3000⟩),
   ("dallas", ⟨450000, 7, "SFH", 1800, 3500⟩),
   ("denver", ⟨600000, 8, "SFH", 1400, 2800⟩),
   ("phoenix", ⟨450000, 6, "SFH", 1600, 3200⟩),
   ("atlanta", ⟨400000, 7, "SFH", 1500, 3000⟩)]

/-- src/backend/data_loader.py lines 261-270: the amenity bundles. -/
def AMENITIES_POOL : List (List String) :=
  [["Gym", "Swimming Pool", "Parking", "Doorman"],
   ["Garden", "Garage", "Central AC", "Fireplace"],
   ["Rooftop Terrace", "Smart Home", "Security System"],
   ["Beach Access", "Balcony", "In-Unit Laundry"],
   ["Private Dock", "BBQ Area", "Pet Friendly"],
   ["Home Office", "Solar Panels", "EV Charging"],
   ["Community Pool", "Tennis Court", "Clubhouse"],
   ["Park View", "Concierge", "Fitness Center"]]

/-- src/backend/data_loader.py lines 232-241: the image pool (backend). -/
def MOCK_IMAGES : List String :=
  ["https://images.pexels.com/photos/106399/pexels-photo-106399.jpeg",
   "https://images.pexels.com/photos/259588/pexels-photo-259588.jpeg",
   "https://images.pexels.com/photos/323780/pexels-photo-323780.jpeg",
   "https://images.pexels.com/photos/271624/pexels-photo-271624.jpeg",
   "https://images.pexels.com/photos/534151/pexels-photo-534151.jpeg",
   "https://images.pexels.com/photos/1396122/pexels-photo-1396122.jpeg",
   "https://images.pexels.com/photos/1029599/pexels-photo-1029599.jpeg",
   "https://images.pexels.com/photos/2102587/pexels-photo-2102587.jpeg"]

/-- src/api/compare-addresses.py lines 14-20: the image pool (serverless),
only five entries. -/
def MOCK_IMAGES_API : List String :=
  ["https://images.pexels.com/photos/106399/pexels-photo-106399.jpeg",
   "https://images.pexels.com/photos/259588/pexels-photo-259588.jpeg",
   "https://images.pexels.com/photos/323780/pexels-photo-323780.jpeg",
   "https://images.pexels.com/photos/271624/pexels-photo-271624.jpeg",
   "https://images.pexels.com/photos/534151/pexels-photo-534151.jpeg"]

/-- src/api/compare-addresses.py lines 39-47: the amenity bundles of the
serverless variant, only seven entries. -/
def AMENITIES_POOL_API : List (List String) :=
  [["Gym", "Swimming Pool", "Parking", "Doorman"],
   ["Garden", "Garage", "Central AC", "Fireplace"],
   ["Rooftop Terrace", "Smart Home", "Security System"],
   ["Beach Access", "Balcony", "In-Unit Laundry"],
   ["Private Dock", "BBQ Area", "Pet Friendly"],
   ["Home Office", "Solar Panels", "EV Charging"],
   ["Community Pool", "Tennis Court", "Clubhouse"]]

/-- src/backend/data_loader.py lines 273-275 (identical in
src/api/compare-addresses.py lines 50-51): the address fingerprint,
sum of codepoint(c) * (i + 1) over the lower-cased address. -/
def _hash_address (address : List ℕ) : ℕ :=
  ((pyLower address).enum.map (fun p => p.2 * (p.1 + 1))).sum

/-- src/backend/data_loader.py lines 278-284 (identical in
src/api/compare-addresses.py lines 54-59): scan the CITY_DATA keys in their
fixed order, return the first key occurring in the lower-cased address. -/
def _extract_city_from_address (address : List ℕ) : Option String :=
  (CITY_DATA.find? (fun p => pyContains (strCodes p.1) (pyLower address))).map
    (fun p => p.1)

/-- src/backend/data_loader.py lines 299-313 (identical in
src/api/compare-addresses.py lines 65-77): the market profile used by the
generator: the CITY_DATA row of the detected city, or the hard-coded
defaults with the property type chosen by fingerprint parity.  The dict
lookup CITY_DATA[city] is a KeyError when the key is absent (never reached:
the detected city is always a key). -/
def cityProfileOf (addr_hash : ℕ) (address : List ℕ) : Except String CityInfo :=
  match _extract_city_from_address address with
  | some city =>
    match CITY_DATA.find? (fun p => p.1 = city) with
    | some p => .ok p.2
    | none => .error "KeyError"
  | none =>
    .ok ⟨500000, 7, if addr_hash % 2 = 0 then "SFH" else "Condo", 1000, 2500⟩

/-- The default market profile used when no city key matches
(src/backend/data_loader.py lines 308-313). -/
def defaultProfile (addr_hash : ℕ) : CityInfo :=
  ⟨500000, 7, if addr_hash % 2 = 0 then "SFH" else "Condo", 1000, 2500⟩

/-- The canonical property record produced by the generator.  String-valued
display fields derived from the address (address, location) are code-point
lists; the rest are Lean strings. -/
structure Record where
  id : ℕ
  address : List ℕ
  title : String
  listed_price : ℤ
  location : List ℕ
  size_sqft : ℕ
  amenities : List String
  image_url : String
  property_type : String
  lot_area : ℕ
  building_area : ℕ
  bedrooms : ℕ
  bathrooms : ℕ
  year_built : ℕ
  has_pool : Bool
  has_garage : Bool
  school_rating : ℤ
  deriving DecidableEq

/-- The body shared by the backend and serverless generators after the city
profile and the size offset are fixed; parameters select the image pool and
the title templates, which differ between the two variants.  `reorder`
models the unspecified iteration order of `list(set(...))`. -/
def buildRecord (reorder : List String → List String)
    (images : List String) (pool : List (List String))
    (condoTitles sfhTitles : ℕ → List String)
    (address : List ℕ) (addr_hash : ℕ) (info : CityInfo) :
    Except String Record :=
  match pymod addr_hash (info.sqft_max - info.sqft_min) with
  | .error e => .error e
  | .ok sizeOff =>
    match pyIdx pool addr_hash with
    | .error e => .error e
    | .ok set1 =>
      match pyIdx pool (addr_hash + 3) with
      | .error e => .error e
      | .ok set2 =>
        match pyIdx images addr_hash with
        | .error e => .error e
        | .ok image_url =>
          let size_sqft := info.sqft_min + sizeOff
          let bedrooms := 1 + addr_hash % 5
          let bathrooms := 1 + addr_hash % 4
          let year_built := min 2024 (1960 + addr_hash % 60)
          let price_multiplier : ℚ := 4/5 + ((addr_hash % 40 : ℕ) : ℚ) / 100
          let listed_price :=
            pyInt ((info.avg_price : ℚ) * price_multiplier * ((size_sqft : ℚ) / 1500))
          let amenities := reorder (pyDedup (set1.take 2 ++ set2.take 2))
          let has_pool := amenities.any (fun a =>
            pyContains (strCodes "pool") (pyLower (strCodes a)))
          let has_garage := amenities.any (fun a =>
            pyContains (strCodes "garage") (pyLower (strCodes a)) ||
            pyContains (strCodes "parking") (pyLower (strCodes a)))
          let school_rating : ℤ :=
            max 1 (min 10 (info.school + ((addr_hash % 3 : ℕ) : ℤ) - 1))
          let titles :=
            if info.ptype = "Condo" then condoTitles bedrooms else sfhTitles bedrooms
          match pyIdx titles addr_hash with
          | .error e => .error e
          | .ok title =>
            let loc :=
              if 44 ∈ address then joinCommaSpace (lastTwo (pySplitComma address))
              else joinCommaSpace [address]
            .ok ⟨addr_hash % 100000, address, title, listed_price, loc, size_sqft,
              amenities, image_url, info.ptype,
              (if info.ptype = "SFH" then size_sqft else 0),
              (if info.ptype = "Condo" then size_sqft else 0),
              bedrooms, bathrooms, year_built, has_pool, has_garage, school_rating⟩

/-- src/backend/data_loader.py lines 344-358: the backend title templates. -/
def backendCondoTitles (bedrooms : ℕ) : List String :=
  [toString bedrooms ++ " BR Condo",
   "Modern " ++ toString bedrooms ++ " Bedroom Apartment",
   "Luxury " ++ toString bedrooms ++ "BR Unit",
   "Stylish " ++ toString bedrooms ++ " Bed Condo"]

/-- src/backend/data_loader.py lines 351-357: the backend SFH titles. -/
def backendSfhTitles (bedrooms : ℕ) : List String :=
  [toString bedrooms ++ " BR Single Family Home",
   "Beautiful " ++ toString bedrooms ++ " Bedroom House",
   "Spacious " ++ toString bedrooms ++ "BR Home",
   "Charming " ++ toString bedrooms ++ " Bed House"]

/-- src/api/compare-addresses.py lines 96-99: the serverless titles. -/
def apiCondoTitles (bedrooms : ℕ) : List String :=
  [toString bedrooms ++ " BR Condo",
   "Modern " ++ toString bedrooms ++ " Bedroom Apartment"]

/-- src/api/compare-addresses.py lines 96-99: the serverless SFH titles. -/
def apiSfhTitles (bedrooms : ℕ) : List String :=
  [toString bedrooms ++ " BR Single Family Home",
   "Beautiful " ++ toString bedrooms ++ " Bedroom House"]

/-- src/backend/data_loader.py lines 287-382, generate_mock_property:
rejects an empty or whitespace-only address, then builds the record
deterministically from the fingerprint of the stripped address. -/
def generate_mock_property (reorder : List String → List String)
    (address₀ : List ℕ) : Except String Record :=
  if address₀ = [] ∨ pyStrip address₀ = [] then
    .error "Address cannot be empty"
  else
    let address := pyStrip address₀
    let addr_hash := _hash_address address
    match cityProfileOf addr_hash address with
    | .error e => .error e
    | .ok info =>
      buildRecord reorder MOCK_IMAGES AMENITIES_POOL
        backendCondoTitles backendSfhTitles address addr_hash info

/-- src/api/compare-addresses.py lines 62-122, generate_mock_property
(serverless variant): no emptiness check at all; strips the address and
builds the record.  The serverless location display keeps the raw address
when there is no comma instead of re-joining it. -/
def api_generate_mock_property (reorder : List String → List String)
    (address₀ : List ℕ) : Except String Record :=
  let address := pyStrip address₀
  let addr_hash := _hash_address address
  match cityProfileOf addr_hash address with
  | .error e => .error e
  | .ok info =>
    match buildRecord reorder MOCK_IMAGES_API AMENITIES_POOL_API
      apiCondoTitles apiSfhTitles address addr_hash info with
    | .error e => .error e
    | .ok r =>
      if 44 ∈ address then .ok r
      else .ok ⟨r.id, r.address, r.title, r.listed_price, address, r.size_sqft,
        r.amenities, r.image_url, r.property_type, r.lot_area,
        r.building_area, r.bedrooms, r.bathrooms, r.year_built,
        r.has_pool, r.has_garage, r.school_rating⟩

/-- A record with its amenities field cleared, for comparing every other
field of two records. -/
def eraseAmenities (r : Record) : Record :=
  { r with amenities := [] }

/-- The record the backend generator produces for the address "ab"
(fingerprint 293, no city match, Condo by parity). -/
def abRecord : Record :=
  ⟨293, [97, 98], "Modern 4 Bedroom Apartment", 400830, [97, 98], 1293,
   ["Home Office", "Solar Panels", "Gym", "Swimming Pool"],
   "https://images.pexels.com/photos/1396122/pexels-photo-1396122.jpeg",
   "Condo", 0, 1293, 4, 2, 2013, true, false, 8⟩

/-- A set-iteration order that happens to match the canonical one. -/
def stdOrder (xs : List String) : List String := xs

/-- A reversed set-iteration order: an equally legitimate iteration order
of a hash-based set over the same elements. -/
def revOrder (xs : List String) : List String := xs.reverse

/-! ## Catalog normalizer (src/backend/data_loader.py lines 26-178) -/

/-- One row of properties_basic.json as read by the loader. -/
structure BasicRow where
  id : ℤ
  title : String
  price : ℤ
  loc : String
  deriving DecidableEq

/-- One row of properties_features.json as read by the loader. -/
structure FeatRow where
  id : ℤ
  size_sqft : ℤ
  amenities : List String
  bedrooms : ℤ
  bathrooms : ℤ
  deriving DecidableEq

/-- One row of properties_images.json as read by the loader. -/
structure ImgRow where
  id : ℤ
  image_url : String
  deriving DecidableEq

/-- The merged record produced by load_all_properties. -/
structure NRecord where
  id : ℤ
  title : String
  listed_price : ℤ
  loc : String
  size_sqft : ℤ
  amenities : List String
  image_url : String
  property_type : String
  lot_area : ℤ
  building_area : ℤ
  bedrooms : ℤ
  bathrooms : ℤ
  year_built : ℤ
  has_pool : Bool
  has_garage : Bool
  school_rating : ℤ
  deriving DecidableEq

/-- src/backend/data_loader.py lines 33-47, _infer_property_type: condo
keywords scanned first, then SFH keywords, defaulting to Condo. -/
def _infer_property_type (title : String) : String :=
  let t := pyLower (strCodes title)
  let condoKeywords := ["apartment", "condo", "studio", "penthouse", "flat", "unit"]
  let sfhKeywords := ["villa", "house", "townhouse", "duplex", "home", "cottage", "bungalow"]
  if condoKeywords.any (fun k => pyContains (strCodes k) t) then "Condo"
  else if sfhKeywords.any (fun k => pyContains (strCodes k) t) then "SFH"
  else "Condo"

/-- src/backend/data_loader.py lines 50-58, _infer_has_pool. -/
def _infer_has_pool (amenities : List String) : Bool :=
  amenities.any (fun a =>
    ["pool", "swimming"].any (fun k => pyContains (strCodes k) (pyLower (strCodes a))))

/-- src/backend/data_loader.py lines 61-69, _infer_has_garage. -/
def _infer_has_garage (amenities : List String) : Bool :=
  amenities.any (fun a =>
    ["garage", "parking", "carport"].any (fun k => pyContains (strCodes k) (pyLower (strCodes a))))

/-- src/backend/data_loader.py lines 72-95, _generate_year_built. -/
def _generate_year_built (prop_id size_sqft price : ℤ) : ℤ :=
  let base_year : ℤ := 1970 +
    (if price > 1000000 then 35 else if price > 700000 then 25
     else if price > 400000 then 15 else 0) +
    (if size_sqft > 2500 then 10 else if size_sqft > 1500 then 5 else 0)
  let variance := (prop_id * 3) % 15
  min 2024 (max 1950 (base_year + variance))

/-- src/backend/data_loader.py lines 101-111: the normalizer's own city
rating table, distinct from CITY_DATA, in source order. -/
def city_ratings : List (String × ℤ) :=
  [("new york", 8), ("san francisco", 9), ("boston", 9), ("seattle", 8),
   ("los angeles", 7), ("chicago", 7), ("miami", 6), ("dallas", 7),
   ("austin", 8)]

/-- src/backend/data_loader.py lines 98-124, _generate_school_rating. -/
def _generate_school_rating (loc : String) (prop_id : ℤ) : ℤ :=
  let l := pyLower (strCodes loc)
  let base :=
    ((city_ratings.find? (fun p => pyContains (strCodes p.1) l)).map
      (fun p => p.2)).getD 6
  let variance := prop_id % 3 - 1
  min 10 (max 1 (base + variance))

/-- Dict lookup built by a comprehension keyed on id: for duplicate ids the
last row wins, so the lookup scans the reversed list. -/
def rowById {α : Type} (getId : α → ℤ) (rows : List α) (i : ℤ) : Option α :=
  rows.reverse.find? (fun r => getId r = i)

/-- src/backend/data_loader.py lines 127-178, load_all_properties: join the
three tables by id with left-join semantics from basic, then infer the
model schema fields. -/
def load_all_properties (basic : List BasicRow) (features : List FeatRow)
    (images : List ImgRow) : List NRecord :=
  basic.map (fun prop =>
    let feat := rowById FeatRow.id features prop.id
    let img := rowById ImgRow.id images prop.id
    let size_sqft := (feat.map FeatRow.size_sqft).getD 1000
    let amenities := (feat.map FeatRow.amenities).getD []
    let property_type := _infer_property_type prop.title
    ⟨prop.id, prop.title, prop.price, prop.loc, size_sqft, amenities,
      ((img.map ImgRow.image_url).getD ""), property_type,
      (if property_type = "SFH" then size_sqft else 0),
      (if property_type = "Condo" then size_sqft else 0),
      ((feat.map FeatRow.bedrooms).getD 2),
      ((feat.map FeatRow.bathrooms).getD 1),
      _generate_year_built prop.id size_sqft prop.price,
      _infer_has_pool amenities,
      _infer_has_garage amenities,
      _generate_school_rating prop.loc prop.id⟩)

/-- A sample basic-table row. -/
def basicRow0 : BasicRow := ⟨1, "Sunny Villa", 500000, "Boston"⟩

/-- A sample features-table row. -/
def featRow0 : FeatRow := ⟨1, 1200, ["Garage"], 3, 2⟩

/-- A sample images-table row. -/
def imgRow0 : ImgRow := ⟨1, "u"⟩

/-- The record the normalizer produces from the three sample rows. -/
def nRecord0 : NRecord :=
  ⟨1, "Sunny Villa", 500000, "Boston", 1200, ["Garage"], "u", "SFH",
   1200, 0, 3, 2, 1988, false, true, 9⟩

/-! ## Lemmas about the valuation functions -/

theorem pyRoundHalfEven_intCast (n : ℤ) : pyRoundHalfEven (n : ℚ) = n := by
  unfold pyRoundHalfEven
  rw [Int.floor_intCast, sub_self]
  norm_num

theorem pyRound2_intCast (n : ℤ) : pyRound2 (n : ℚ) = n := by
  unfold pyRound2
  rw [show ((n : ℚ)) * 100 = ((n * 100 : ℤ) : ℚ) by push_cast; ring,
    pyRoundHalfEven_intCast]
  push_cast
  rw [mul_div_assoc]
  norm_num

theorem intPrice_cast (f : Features) :
    ((intPrice f : ℤ) : ℚ) =
      75000 + (if f.property_type = "SFH" then (65000 : ℚ) else 35000)
      + (if f.property_type = "SFH" then (f.lot_area : ℚ) * 12
         else (f.building_area : ℚ) * 220)
      + (f.bedrooms : ℚ) * 32500 + (f.bathrooms : ℚ) * 27500
      + ((max 1 (min 10 f.school_rating) : ℤ) : ℚ) * 11500
      + ((if f.has_pool then (18000 : ℚ) else 0) +
         (if f.has_garage then (12500 : ℚ) else 0))
      - ((max 0 (2025 - f.year_built) : ℤ) : ℚ) * 900 := by
  unfold intPrice
  split_ifs <;> push_cast <;> ring

theorem predictOne_char (f : Features)
    (h : f.property_type = "SFH" ∨ f.property_type = "Condo") :
    predictOne f = .ok ((max 25000 (intPrice f) : ℤ) : ℚ) := by
  have hne : ¬(f.property_type ≠ "SFH" ∧ f.property_type ≠ "Condo") := by
    rcases h with h | h <;> simp [h]
  unfold predictOne
  rw [if_neg hne]
  dsimp only
  congr 1
  rw [← intPrice_cast, pyRound2_intCast, Int.cast_max]
  norm_num

theorem predict_price_char (f : Features) :
    predict_price f = ((max 25000 (intPrice f) : ℤ) : ℚ) := by
  unfold predict_price
  dsimp only
  rw [← intPrice_cast, pyRound2_intCast, Int.cast_max]
  norm_num

theorem spec_valuation_eq_api (f : Features) :
    spec_valuation f = predict_price f := by
  by_cases h : f.property_type = "SFH" <;>
    simp only [spec_valuation, predict_price, h, if_true, if_false] <;>
    congr 2 <;> ring

theorem predictOne_error (f : Features)
    (h : f.property_type ≠ "SFH" ∧ f.property_type ≠ "Condo") :
    predictOne f = .error "property_type must be SFH or Condo" := by
  unfold predictOne
  rw [if_pos h]

theorem predictOne_ok_enum (f : Features) (v : ℚ) (h : predictOne f = .ok v) :
    f.property_type = "SFH" ∨ f.property_type = "Condo" := by
  by_contra hc
  rw [not_or] at hc
  rw [predictOne_error f hc] at h
  exact Except.noConfusion h

theorem setLotArea_type (f : Features) (a : ℤ) :
    (setLotArea f a).property_type = f.property_type := rfl

theorem setBuildingArea_type (f : Features) (a : ℤ) :
    (setBuildingArea f a).property_type = f.property_type := rfl

theorem setArea_type (f : Features) (a : ℤ) :
    (setArea f a).property_type = f.property_type := by
  unfold setArea
  split_ifs <;> rfl

theorem setYearBuilt_type (f : Features) (y : ℤ) :
    (setYearBuilt f y).property_type = f.property_type := rfl

theorem intPrice_setArea_strict (f : Features) (a₁ a₂ : ℤ) (h : a₁ < a₂) :
    intPrice (setArea f a₁) < intPrice (setArea f a₂) := by
  unfold setArea
  by_cases ht : f.property_type = "SFH" <;>
    simp only [intPrice, setLotArea, setBuildingArea, ht, if_true, if_false] <;>
    linarith

theorem intPrice_setYear_strict (f : Features) (y₁ y₂ : ℤ)
    (h : y₂ < y₁) (h25 : y₁ ≤ 2025) :
    intPrice (setYearBuilt f y₂) < intPrice (setYearBuilt f y₁) := by
  simp only [intPrice, setYearBuilt]
  rw [max_eq_right (by omega : (0:ℤ) ≤ 2025 - y₁),
    max_eq_right (by omega : (0:ℤ) ≤ 2025 - y₂)]
  linarith

theorem floorMax_le {x y : ℤ} (h : x ≤ y) : max 25000 x ≤ max 25000 y :=
  max_le_max le_rfl h

theorem floorMax_lt {x y : ℤ} (h : x < y) (h2 : 25000 < max 25000 y) :
    max 25000 x < max 25000 y := by
  rcases le_or_lt x 25000 with hx | hx
  · rw [max_eq_left hx]
    exact h2
  · rw [max_eq_right hx.le]
    exact lt_of_lt_of_le h (le_max_right _ _)

/-! ## Claim theorems: valuation -/

/-- C2.  Valuation formula correctness: for every feature set with
property_type in {SFH, Condo}, the backend _predict_one returns
max(25000, round(75000 + type_bias + area*area_rate + bedrooms*32500 +
bathrooms*27500 + clamp(1,10,school_rating)*11500 + 18000*[has_pool] +
12500*[has_garage] - max(0, 2025-year_built)*900, 2)) with (area,
area_rate, type_bias) = (lot_area, 12, 65000) for SFH and (building_area,
220, 35000) for Condo; in particular the section-8 scenario input yields
exactly 418600. -/
theorem claim_C2_formula (f : Features)
    (h : f.property_type = "SFH" ∨ f.property_type = "Condo") :
    predictOne f = .ok (spec_valuation f) ∧
    predictOne scenarioFeatures = .ok 418600 := by
  constructor
  · rw [predictOne_char f h, spec_valuation_eq_api, predict_price_char]
  · decide

/-- C2 witness: the section-8 scenario input instantiates the theorem. -/
theorem claim_C2_formula_witness :
    predictOne scenarioFeatures = .ok (spec_valuation scenarioFeatures) ∧
    predictOne scenarioFeatures = .ok 418600 :=
  claim_C2_formula scenarioFeatures (Or.inl rfl)

/-- C3 counterexample: the serverless predict_price does not fail on the
non-enum property_type "Mansion"; it returns 167500 through the Condo
branch, refuting the claim that predict fails with InvalidInput if and only
if property_type is outside {SFH, Condo}. -/
theorem claim_C3_cex : predict_price mansionFeatures = 167500 := by
  decide

/-- C3 amended: the backend model's _predict_one fails exactly when
property_type is outside {SFH, Condo} and otherwise agrees with the
serverless predict_price; the serverless predict_price never fails, and a
non-SFH property_type simply takes its Condo branch. -/
theorem claim_C3_amended (f : Features) :
    ((f.property_type ≠ "SFH" ∧ f.property_type ≠ "Condo") →
      predictOne f = .error "property_type must be SFH or Condo") ∧
    ((f.property_type = "SFH" ∨ f.property_type = "Condo") →
      predictOne f = .ok (predict_price f)) ∧
    (f.property_type ≠ "SFH" →
      predict_price f = predict_price (setType f "Condo")) := by
  refine ⟨fun h => predictOne_error f h, fun h => ?_, fun h => ?_⟩
  · rw [predictOne_char f h, predict_price_char]
  · simp [predict_price, setType, h]

/-- C3 witness: the amended claim instantiated at a non-enum input and at
the scenario input. -/
theorem claim_C3_amended_witness :
    predictOne mansionFeatures = .error "property_type must be SFH or Condo" ∧
    predictOne scenarioFeatures = .ok (predict_price scenarioFeatures) ∧
    predict_price mansionFeatures = predict_price (setType mansionFeatures "Condo") :=
  ⟨(claim_C3_amended mansionFeatures).1 (by decide),
   (claim_C3_amended scenarioFeatures).2.1 (Or.inl rfl),
   (claim_C3_amended mansionFeatures).2.2 (by decide)⟩

/-- C6 counterexample: two SFH feature sets differing only in lot_area
(0 versus 1) both evaluate to the 25000 floor, refuting the claim that
increasing area strictly increases the prediction. -/
theorem claim_C6_cex :
    predictOne ⟨"SFH", 0, 0, 0, 0, 1600, false, false, 1⟩ = .ok 25000 ∧
    predictOne (setArea ⟨"SFH", 0, 0, 0, 0, 1600, false, false, 1⟩ 1) = .ok 25000 := by
  constructor <;> decide

/-- C6 amended: holding all else fixed, increasing the area (lot_area for
SFH, building_area otherwise) weakly increases the prediction and strictly
increases it until the 25000 floor is hit (strict whenever the larger
result exceeds the floor); decreasing year_built below 2025 weakly
decreases the prediction and strictly decreases it until the floor is hit. -/
theorem claim_C6_amended (f : Features) (a₁ a₂ y₁ y₂ : ℤ) (v₁ v₂ w₁ w₂ : ℚ)
    (ha : a₁ < a₂) (hy : y₂ < y₁) (hy25 : y₁ ≤ 2025)
    (h₁ : predictOne (setArea f a₁) = .ok v₁)
    (h₂ : predictOne (setArea f a₂) = .ok v₂)
    (h₃ : predictOne (setYearBuilt f y₁) = .ok w₁)
    (h₄ : predictOne (setYearBuilt f y₂) = .ok w₂) :
    v₁ ≤ v₂ ∧ (25000 < v₂ → v₁ < v₂) ∧
    w₂ ≤ w₁ ∧ (25000 < w₁ → w₂ < w₁) := by
  have he : f.property_type = "SFH" ∨ f.property_type = "Condo" := by
    have := predictOne_ok_enum _ _ h₁
    rwa [setArea_type] at this
  have he₁ := he
  rw [← setArea_type f a₁] at he₁
  have he₂ := he
  rw [← setArea_type f a₂] at he₂
  have he₃ := he
  rw [← setYearBuilt_type f y₁] at he₃
  have he₄ := he
  rw [← setYearBuilt_type f y₂] at he₄
  rw [predictOne_char _ he₁] at h₁
  rw [predictOne_char _ he₂] at h₂
  rw [predictOne_char _ he₃] at h₃
  rw [predictOne_char _ he₄] at h₄
  have e₁ := (Except.ok.inj h₁).symm
  have e₂ := (Except.ok.inj h₂).symm
  have e₃ := (Except.ok.inj h₃).symm
  have e₄ := (Except.ok.inj h₄).symm
  subst e₁ e₂ e₃ e₄
  have hA := intPrice_setArea_strict f a₁ a₂ ha
  have hY := intPrice_setYear_strict f y₁ y₂ hy hy25
  refine ⟨?_, fun hlt => ?_, ?_, fun hlt => ?_⟩
  · exact_mod_cast floorMax_le hA.le
  · exact_mod_cast floorMax_lt hA (by exact_mod_cast hlt)
  · exact_mod_cast floorMax_le hY.le
  · exact_mod_cast floorMax_lt hY (by exact_mod_cast hlt)

/-- C6 witness: the amended monotonicity statement instantiated at the
scenario input with lot areas 1700 < 1800 and years 2000 < 2005. -/
theorem claim_C6_amended_witness :
    (417400 : ℚ) ≤ 418600 ∧ ((25000 : ℚ) < 418600 → (417400 : ℚ) < 418600) ∧
    (414100 : ℚ) ≤ 418600 ∧ ((25000 : ℚ) < 418600 → (414100 : ℚ) < 418600) :=
  claim_C6_amended scenarioFeatures 1700 1800 2005 2000 417400 418600 418600 414100
    (by decide) (by decide) (by decide)
    (by decide) (by decide) (by decide) (by decide)

/-- C7.  Valuation floor: every value returned by the backend _predict_one
on a feature set with property_type in {SFH, Condo} is at least 25000. -/
theorem claim_C7_floor (f : Features)
    (h : f.property_type = "SFH" ∨ f.property_type = "Condo")
    (v : ℚ) (hv : predictOne f = .ok v) : (25000 : ℚ) ≤ v := by
  rw [predictOne_char f h] at hv
  have := (Except.ok.inj hv).symm
  subst this
  exact_mod_cast le_max_left (25000 : ℤ) (intPrice f)

/-- C7 witness: the floor at the scenario input. -/
theorem claim_C7_floor_witness :
    predictOne scenarioFeatures = .ok 418600 ∧ (25000 : ℚ) ≤ 418600 :=
  ⟨by decide, claim_C7_floor scenarioFeatures (Or.inl rfl) 418600 (by decide)⟩

/-- C10.  Equivalence of the two valuation implementations: on every
feature set with property_type in {SFH, Condo}, the backend _predict_one
returns exactly the value of the serverless predict_price. -/
theorem claim_C10_equivalence (f : Features)
    (h : f.property_type = "SFH" ∨ f.property_type = "Condo") :
    predictOne f = .ok (predict_price f) := by
  rw [predictOne_char f h, predict_price_char]

/-- C10 witness: the equivalence at the scenario input. -/
theorem claim_C10_equivalence_witness :
    predictOne scenarioFeatures = .ok (predict_price scenarioFeatures) :=
  claim_C10_equivalence scenarioFeatures (Or.inl rfl)

/-! ## Lemmas about the generator -/

theorem pyLowerChar_idem (c : ℕ) : pyLowerChar (pyLowerChar c) = pyLowerChar c := by
  unfold pyLowerChar
  split_ifs <;> omega

theorem pyLower_idem (s : List ℕ) : pyLower (pyLower s) = pyLower s := by
  unfold pyLower
  rw [List.map_map]
  exact List.map_congr_left (fun c _ => pyLowerChar_idem c)

theorem hash_address_lower (a : List ℕ) :
    _hash_address a = _hash_address (pyLower a) := by
  unfold _hash_address
  rw [pyLower_idem]

theorem any_of_perm {l₁ l₂ : List String} (h : List.Perm l₁ l₂)
    (p : String → Bool) : l₁.any p = l₂.any p := by
  cases hb : l₂.any p with
  | true =>
    rw [List.any_eq_true] at hb ⊢
    obtain ⟨x, hx, hpx⟩ := hb
    exact ⟨x, h.mem_iff.mpr hx, hpx⟩
  | false =>
    rw [List.any_eq_false] at hb ⊢
    intro x hx
    exact hb x (h.mem_iff.mp hx)

theorem cityData_bounds : ∀ p ∈ CITY_DATA,
    p.2.sqft_min < p.2.sqft_max ∧ 0 < p.2.sqft_min ∧
    (p.2.ptype = "SFH" ∨ p.2.ptype = "Condo") := by
  decide

theorem cityProfileOf_ok (h : ℕ) (a : List ℕ) :
    ∃ info, cityProfileOf h a = .ok info ∧
      (info ∈ CITY_DATA.map Prod.snd ∨ info = defaultProfile h) := by
  unfold cityProfileOf
  cases hx : _extract_city_from_address a with
  | none => exact ⟨_, rfl, Or.inr rfl⟩
  | some city =>
    unfold _extract_city_from_address at hx
    cases hf : CITY_DATA.find? (fun p => pyContains (strCodes p.1) (pyLower a)) with
    | none => rw [hf] at hx; exact absurd hx (by simp)
    | some p =>
      rw [hf] at hx
      have hp1 : p.1 = city := by simpa using hx
      have hmem := List.mem_of_find?_eq_some hf
      cases hg : CITY_DATA.find? (fun q => q.1 = city) with
      | none =>
        exact absurd (by simp [hp1]) (List.find?_eq_none.mp hg p hmem)
      | some q =>
        refine ⟨q.2, ?_,
          Or.inl (List.mem_map_of_mem _ (List.mem_of_find?_eq_some hg))⟩
        dsimp only
        rw [hg]

theorem profile_bounds {h : ℕ} {info : CityInfo}
    (hi : info ∈ CITY_DATA.map Prod.snd ∨ info = defaultProfile h) :
    info.sqft_min < info.sqft_max ∧ 0 < info.sqft_min ∧
    (info.ptype = "SFH" ∨ info.ptype = "Condo") := by
  rcases hi with hi | hi
  · obtain ⟨p, hp, rfl⟩ := List.mem_map.mp hi
    exact cityData_bounds p hp
  · subst hi
    unfold defaultProfile
    refine ⟨by norm_num, by norm_num, ?_⟩
    split_ifs <;> simp

theorem buildRecord_ok_inv {reorder : List String → List String}
    {images : List String} {pool : List (List String)}
    {ct st : ℕ → List String} {address : List ℕ} {h : ℕ} {info : CityInfo}
    {r : Record}
    (hr : buildRecord reorder images pool ct st address h info = .ok r) :
    r.property_type = info.ptype ∧
    info.sqft_min ≤ r.size_sqft ∧
    r.lot_area = (if info.ptype = "SFH" then r.size_sqft else 0) ∧
    r.building_area = (if info.ptype = "Condo" then r.size_sqft else 0) ∧
    r.bedrooms = 1 + h % 5 ∧
    r.bathrooms = 1 + h % 4 ∧
    r.year_built = min 2024 (1960 + h % 60) ∧
    r.school_rating = max 1 (min 10 (info.school + ((h % 3 : ℕ) : ℤ) - 1)) ∧
    (∀ xs, List.Perm (reorder xs) xs →
      r.amenities.any (fun a => pyContains (strCodes "pool") (pyLower (strCodes a)))
        = r.has_pool) := by
  unfold buildRecord at hr
  cases hm : pymod h (info.sqft_max - info.sqft_min) with
  | error e => rw [hm] at hr; exact absurd hr (by simp)
  | ok sizeOff =>
    rw [hm] at hr
    cases h1 : pyIdx pool h with
    | error e => rw [h1] at hr; exact absurd hr (by simp)
    | ok set1 =>
      rw [h1] at hr
      cases h2 : pyIdx pool (h + 3) with
      | error e => rw [h2] at hr; exact absurd hr (by simp)
      | ok set2 =>
        rw [h2] at hr
        cases h3 : pyIdx images h with
        | error e => rw [h3] at hr; exact absurd hr (by simp)
        | ok image_url =>
          rw [h3] at hr
          dsimp only at hr
          cases h4 : pyIdx
              (if info.ptype = "Condo" then ct (1 + h % 5) else st (1 + h % 5)) h with
          | error e => rw [h4] at hr; exact absurd hr (by simp)
          | ok title =>
            rw [h4] at hr
            have := (Except.ok.inj hr).symm
            subst this
            refine ⟨rfl, Nat.le_add_right _ _, rfl, rfl, rfl, rfl, rfl, rfl, ?_⟩
            intro xs hperm
            rfl

theorem generate_ok_inv {reorder : List String → List String}
    {a : List ℕ} {r : Record}
    (hr : generate_mock_property reorder a = .ok r) :
    ∃ info, (info ∈ CITY_DATA.map Prod.snd ∨
        info = defaultProfile (_hash_address (pyStrip a))) ∧
      buildRecord reorder MOCK_IMAGES AMENITIES_POOL backendCondoTitles
        backendSfhTitles (pyStrip a) (_hash_address (pyStrip a)) info = .ok r := by
  unfold generate_mock_property at hr
  split at hr
  · exact absurd hr (by simp)
  · dsimp only at hr
    obtain ⟨info, hok, hmem⟩ :=
      cityProfileOf_ok (_hash_address (pyStrip a)) (pyStrip a)
    rw [hok] at hr
    exact ⟨info, hmem, hr⟩

theorem buildRecord_total (reorder : List String → List String)
    (images : List String) (pool : List (List String))
    (ct st : ℕ → List String) (address : List ℕ) (h : ℕ) (info : CityInfo)
    (hw : info.sqft_min < info.sqft_max)
    (himg : images ≠ []) (hpool : pool ≠ [])
    (hct : ∀ b, ct b ≠ []) (hst : ∀ b, st b ≠ []) :
    ∃ r, buildRecord reorder images pool ct st address h info = .ok r := by
  unfold buildRecord
  rw [show pymod h (info.sqft_max - info.sqft_min)
      = .ok (h % (info.sqft_max - info.sqft_min)) from by
    unfold pymod
    rw [if_neg (by omega)]]
  cases pool with
  | nil => exact absurd rfl hpool
  | cons p0 prest =>
    cases images with
    | nil => exact absurd rfl himg
    | cons i0 irest =>
      dsimp only [pyIdx]
      cases hl : (if info.ptype = "Condo" then ct (1 + h % 5)
          else st (1 + h % 5)) with
      | nil =>
        by_cases hc : info.ptype = "Condo"
        · rw [if_pos hc] at hl
          exact absurd hl (hct _)
        · rw [if_neg hc] at hl
          exact absurd hl (hst _)
      | cons t0 ts =>
        dsimp only [pyIdx]
        exact ⟨_, rfl⟩

theorem generate_total (reorder : List String → List String) (a : List ℕ)
    (h : pyStrip a ≠ []) :
    ∃ r, generate_mock_property reorder a = .ok r := by
  unfold generate_mock_property
  rw [if_neg (by
    rintro (rfl | he)
    · exact h rfl
    · exact h he)]
  dsimp only
  obtain ⟨info, hok, hmem⟩ :=
    cityProfileOf_ok (_hash_address (pyStrip a)) (pyStrip a)
  rw [hok]
  obtain ⟨hw, -, -⟩ := profile_bounds hmem
  exact buildRecord_total reorder MOCK_IMAGES AMENITIES_POOL backendCondoTitles
    backendSfhTitles (pyStrip a) (_hash_address (pyStrip a)) info hw
    (by simp [MOCK_IMAGES]) (by simp [AMENITIES_POOL])
    (fun b => by simp [backendCondoTitles]) (fun b => by simp [backendSfhTitles])

theorem api_generate_total (reorder : List String → List String) (a : List ℕ) :
    ∃ r, api_generate_mock_property reorder a = .ok r := by
  unfold api_generate_mock_property
  dsimp only
  obtain ⟨info, hok, hmem⟩ :=
    cityProfileOf_ok (_hash_address (pyStrip a)) (pyStrip a)
  rw [hok]
  obtain ⟨hw, -, -⟩ := profile_bounds hmem
  obtain ⟨r, hr⟩ := buildRecord_total reorder MOCK_IMAGES_API AMENITIES_POOL_API
    apiCondoTitles apiSfhTitles (pyStrip a) (_hash_address (pyStrip a)) info hw
    (by simp [MOCK_IMAGES_API]) (by simp [AMENITIES_POOL_API])
    (fun b => by simp [apiCondoTitles]) (fun b => by simp [apiSfhTitles])
  dsimp only
  rw [hr]
  dsimp only
  by_cases h44 : 44 ∈ pyStrip a
  · rw [if_pos h44]
    exact ⟨r, rfl⟩
  · rw [if_neg h44]
    exact ⟨_, rfl⟩

/-! ## Claim theorems: generator -/

/-- C1 counterexample: the full generated record is not a pure function of
the lower-cased address, and it depends on the iteration order of the
amenity set.  The addresses "Dallas x" and "dallas x" have the same
lower-casing yet produce different records (the address and location
display fields keep the original casing); and the same address produces
different records under two legitimate set-iteration orders (the amenities
lists differ). -/
theorem claim_C1_cex :
    (pyLower (strCodes "Dallas x") = pyLower (strCodes "dallas x") ∧
     generate_mock_property stdOrder (strCodes "Dallas x") ≠
       generate_mock_property stdOrder (strCodes "dallas x")) ∧
    generate_mock_property stdOrder (strCodes "Dallas x") ≠
      generate_mock_property revOrder (strCodes "Dallas x") := by
  refine ⟨⟨by decide, by decide⟩, by decide⟩

/-- C1 amended: the generator is deterministic once the iteration order of
the amenity set is fixed: generate(a) = generate(a) across repeated calls,
and the fingerprint is a pure function of the lower-cased address.  The
full record, however, is a function of the original (trimmed) address, not
of its lower-casing alone, and only the amenities list order depends on the
set-iteration order: any two legitimate iteration orders yield records that
agree on every other field and whose amenities lists are permutations of
each other. -/
theorem claim_C1_amended (reorder₁ reorder₂ : List String → List String)
    (a : List ℕ) (r₁ r₂ : Record)
    (hp₁ : ∀ xs, List.Perm (reorder₁ xs) xs)
    (hp₂ : ∀ xs, List.Perm (reorder₂ xs) xs)
    (h₁ : generate_mock_property reorder₁ a = .ok r₁)
    (h₂ : generate_mock_property reorder₂ a = .ok r₂) :
    _hash_address a = _hash_address (pyLower a) ∧
    generate_mock_property reorder₁ a = generate_mock_property reorder₁ a ∧
    eraseAmenities r₁ = eraseAmenities r₂ ∧
    List.Perm r₁.amenities r₂.amenities := by
  refine ⟨hash_address_lower a, rfl, ?_⟩
  unfold generate_mock_property at h₁ h₂
  split at h₁
  · exact absurd h₁ (by simp)
  · split at h₂
    · exact absurd h₂ (by simp)
    · dsimp only at h₁ h₂
      obtain ⟨info, hok, hmem⟩ :=
        cityProfileOf_ok (_hash_address (pyStrip a)) (pyStrip a)
      rw [hok] at h₁ h₂
      dsimp only at h₁ h₂
      unfold buildRecord at h₁ h₂
      cases hm : pymod (_hash_address (pyStrip a)) (info.sqft_max - info.sqft_min) with
      | error e =>
        rw [hm] at h₁
        exact absurd h₁ (by simp)
      | ok sizeOff =>
        rw [hm] at h₁ h₂
        simp only [AMENITIES_POOL, MOCK_IMAGES, pyIdx] at h₁ h₂
        have hperm : ∀ xs, List.Perm (reorder₁ xs) (reorder₂ xs) :=
          fun xs => (hp₁ xs).trans (hp₂ xs).symm
        by_cases hc : info.ptype = "Condo"
        · simp only [hc, if_true, backendCondoTitles, pyIdx] at h₁ h₂
          have e₁ := (Except.ok.inj h₁).symm
          have e₂ := (Except.ok.inj h₂).symm
          subst e₁ e₂
          refine ⟨?_, hperm _⟩
          simp only [eraseAmenities, Record.mk.injEq, and_true, true_and]
          exact ⟨any_of_perm (hperm _) _, any_of_perm (hperm _) _⟩
        · simp only [hc, if_false, backendSfhTitles, pyIdx] at h₁ h₂
          have e₁ := (Except.ok.inj h₁).symm
          have e₂ := (Except.ok.inj h₂).symm
          subst e₁ e₂
          refine ⟨?_, hperm _⟩
          simp only [eraseAmenities, Record.mk.injEq, and_true, true_and]
          exact ⟨any_of_perm (hperm _) _, any_of_perm (hperm _) _⟩

/-- C1 witness: the amended determinism statement at the address "ab" with
the canonical iteration order on both sides. -/
theorem claim_C1_amended_witness :
    _hash_address (strCodes "ab") = _hash_address (pyLower (strCodes "ab")) ∧
    generate_mock_property stdOrder (strCodes "ab") =
      generate_mock_property stdOrder (strCodes "ab") ∧
    eraseAmenities abRecord = eraseAmenities abRecord ∧
    List.Perm abRecord.amenities abRecord.amenities :=
  claim_C1_amended stdOrder stdOrder (strCodes "ab") abRecord abRecord
    (fun xs => List.Perm.refl xs) (fun xs => List.Perm.refl xs)
    (by decide) (by decide)

/-- C4 counterexample: the serverless generate_mock_property does not fail
on the empty address; it strips it, hashes it to 0 and returns a complete
record, refuting the claim that generate fails with InvalidInput on an
empty or whitespace-only address. -/
theorem claim_C4_cex :
    (api_generate_mock_property stdOrder []).isOk = true := by
  decide

/-- C4 amended: the backend generate_mock_property fails with InvalidInput
exactly when the address is empty or whitespace-only after trimming, and
cannot fail on any other input; the serverless variant performs no
emptiness check at all and returns a record for every address, the empty
one included (its HTTP handler rejects empty addresses before calling
it). -/
theorem claim_C4_amended (reorder : List String → List String) (a : List ℕ) :
    ((a = [] ∨ pyStrip a = []) →
      generate_mock_property reorder a = .error "Address cannot be empty") ∧
    (pyStrip a ≠ [] → ∃ r, generate_mock_property reorder a = .ok r) ∧
    (∃ r, api_generate_mock_property reorder a = .ok r) := by
  refine ⟨fun h => ?_, fun h => generate_total reorder a h,
    api_generate_total reorder a⟩
  unfold generate_mock_property
  rw [if_pos h]

/-- C4 witness: the amended error contract at the empty address and at the
address "ab". -/
theorem claim_C4_amended_witness :
    generate_mock_property stdOrder [] = .error "Address cannot be empty" ∧
    (∃ r, generate_mock_property stdOrder (strCodes "ab") = .ok r) ∧
    (∃ r, api_generate_mock_property stdOrder (strCodes "ab") = .ok r) :=
  ⟨(claim_C4_amended stdOrder []).1 (Or.inl rfl),
   (claim_C4_amended stdOrder (strCodes "ab")).2.1 (by decide),
   (claim_C4_amended stdOrder (strCodes "ab")).2.2⟩

/-- C9.  City-detection tie-break: the generator scans the CITY_DATA keys
in their fixed order and picks the first key occurring in the lower-cased
address, so any address containing both "new york" and "manhattan"
resolves to "new york" with avg_price 850000 and school base 8; when no
key matches, the hard-coded default profile (avg_price 500000, school base
7, type by fingerprint parity, sqft range 1000-2500) is used. -/
theorem claim_C9_tiebreak (a : List ℕ) (h : ℕ) :
    (pyContains (strCodes "new york") (pyLower a) = true →
     pyContains (strCodes "manhattan") (pyLower a) = true →
     _extract_city_from_address a = some "new york" ∧
     cityProfileOf h a = .ok ⟨850000, 8, "Condo", 800, 2000⟩) ∧
    (_extract_city_from_address a = none →
     cityProfileOf h a = .ok (defaultProfile h)) := by
  constructor
  · intro hn _hm
    have hx : _extract_city_from_address a = some "new york" := by
      unfold _extract_city_from_address CITY_DATA
      simp only [List.find?_cons, hn]
      rfl
    refine ⟨hx, ?_⟩
    unfold cityProfileOf
    rw [hx]
    dsimp only
    rfl
  · intro hnone
    unfold cityProfileOf
    rw [hnone]
    rfl

/-- C9 witness: the tie-break at an address containing both city keys, and
the default profile at an address matching no key. -/
theorem claim_C9_tiebreak_witness :
    (_extract_city_from_address (strCodes "1 New York St, Manhattan")
       = some "new york" ∧
     cityProfileOf 0 (strCodes "1 New York St, Manhattan")
       = .ok ⟨850000, 8, "Condo", 800, 2000⟩) ∧
    cityProfileOf 7 (strCodes "zzz") = .ok (defaultProfile 7) :=
  ⟨(claim_C9_tiebreak (strCodes "1 New York St, Manhattan") 0).1
     (by decide) (by decide),
   (claim_C9_tiebreak (strCodes "zzz") 7).2 (by decide)⟩

/-! ## Lemmas about the normalizer, and the record-shape claims -/

theorem infer_type_enum (t : String) :
    _infer_property_type t = "SFH" ∨ _infer_property_type t = "Condo" := by
  unfold _infer_property_type
  dsimp only
  split_ifs <;> simp

theorem rowById_mem {α : Type} {getId : α → ℤ} {rows : List α} {i : ℤ} {x : α}
    (h : rowById getId rows i = some x) : x ∈ rows :=
  List.mem_reverse.mp (List.mem_of_find?_eq_some h)

/-- C5.  Exclusivity invariant: every record the generator returns and
every record the normalizer returns (from feature tables whose rows carry
positive sizes, as the canonical schema requires) has exactly one of
lot_area, building_area non-zero; the non-zero one is size_sqft (lot_area
for SFH, building_area for Condo) and the other is 0, so lot_area +
building_area = size_sqft. -/
theorem claim_C5_exclusivity (reorder : List String → List String)
    (a : List ℕ) (r : Record)
    (h₁ : generate_mock_property reorder a = .ok r)
    (basic : List BasicRow) (features : List FeatRow) (images : List ImgRow)
    (hpos : ∀ fr ∈ features, 0 < fr.size_sqft)
    (nr : NRecord) (h₂ : nr ∈ load_all_properties basic features images) :
    (r.size_sqft ≠ 0 ∧ r.lot_area + r.building_area = r.size_sqft ∧
     ((r.property_type = "SFH" ∧ r.lot_area = r.size_sqft ∧ r.building_area = 0) ∨
      (r.property_type = "Condo" ∧ r.building_area = r.size_sqft ∧ r.lot_area = 0))) ∧
    (nr.size_sqft ≠ 0 ∧ nr.lot_area + nr.building_area = nr.size_sqft ∧
     ((nr.property_type = "SFH" ∧ nr.lot_area = nr.size_sqft ∧ nr.building_area = 0) ∨
      (nr.property_type = "Condo" ∧ nr.building_area = nr.size_sqft ∧ nr.lot_area = 0))) := by
  constructor
  · obtain ⟨info, hmem, hb⟩ := generate_ok_inv h₁
    obtain ⟨htype, hsize, hlot, hbuild, -, -, -, -, -⟩ := buildRecord_ok_inv hb
    obtain ⟨-, hmin, henum⟩ := profile_bounds hmem
    rcases henum with he | he
    · rw [he] at hlot hbuild
      simp only [String.reduceEq, if_true, if_false, reduceIte] at hlot hbuild
      exact ⟨by omega, by omega, Or.inl ⟨htype.trans he, hlot, hbuild⟩⟩
    · rw [he] at hlot hbuild
      simp only [String.reduceEq, if_true, if_false, reduceIte] at hlot hbuild
      exact ⟨by omega, by omega, Or.inr ⟨htype.trans he, hbuild, hlot⟩⟩
  · unfold load_all_properties at h₂
    obtain ⟨prop, -, rfl⟩ := List.mem_map.mp h₂
    have hs : (0:ℤ) <
        (Option.map FeatRow.size_sqft (rowById FeatRow.id features prop.id)).getD 1000 := by
      cases hfr : rowById FeatRow.id features prop.id with
      | none => norm_num
      | some fr => simpa using hpos fr (rowById_mem hfr)
    dsimp only
    rcases infer_type_enum prop.title with he | he
    · rw [he]
      simp only [String.reduceEq, if_true, if_false, reduceIte]
      exact ⟨hs.ne', by omega, Or.inl ⟨by trivial, by trivial, by trivial⟩⟩
    · rw [he]
      simp only [String.reduceEq, if_true, if_false, reduceIte]
      exact ⟨hs.ne', by omega, Or.inr ⟨by trivial, by trivial, by trivial⟩⟩

/-- C5 witness: the exclusivity invariant at the generated record for the
address "ab" and at the normalized record of the three sample rows. -/
theorem claim_C5_exclusivity_witness :
    (abRecord.size_sqft ≠ 0 ∧
     abRecord.lot_area + abRecord.building_area = abRecord.size_sqft ∧
     ((abRecord.property_type = "SFH" ∧ abRecord.lot_area = abRecord.size_sqft ∧
       abRecord.building_area = 0) ∨
      (abRecord.property_type = "Condo" ∧ abRecord.building_area = abRecord.size_sqft ∧
       abRecord.lot_area = 0))) ∧
    (nRecord0.size_sqft ≠ 0 ∧
     nRecord0.lot_area + nRecord0.building_area = nRecord0.size_sqft ∧
     ((nRecord0.property_type = "SFH" ∧ nRecord0.lot_area = nRecord0.size_sqft ∧
       nRecord0.building_area = 0) ∨
      (nRecord0.property_type = "Condo" ∧ nRecord0.building_area = nRecord0.size_sqft ∧
       nRecord0.lot_area = 0))) :=
  claim_C5_exclusivity stdOrder (strCodes "ab") abRecord (by decide)
    [basicRow0] [featRow0] [imgRow0] (by decide) nRecord0 (by decide)

/-- C8.  Range invariants: every generator record has school_rating in
[1, 10], year_built in [1960, 2024] and bedrooms, bathrooms at least 1;
every normalizer record has school_rating in [1, 10], year_built in
[1950, 2024], and bedrooms, bathrooms at least 0 whenever the source
feature rows carry non-negative values. -/
theorem claim_C8_ranges (reorder : List String → List String)
    (a : List ℕ) (r : Record)
    (h₁ : generate_mock_property reorder a = .ok r)
    (basic : List BasicRow) (features : List FeatRow) (images : List ImgRow)
    (hrow : ∀ fr ∈ features, 0 ≤ fr.bedrooms ∧ 0 ≤ fr.bathrooms)
    (nr : NRecord) (h₂ : nr ∈ load_all_properties basic features images) :
    (1 ≤ r.school_rating ∧ r.school_rating ≤ 10 ∧
     1960 ≤ r.year_built ∧ r.year_built ≤ 2024 ∧
     1 ≤ r.bedrooms ∧ 1 ≤ r.bathrooms) ∧
    (1 ≤ nr.school_rating ∧ nr.school_rating ≤ 10 ∧
     1950 ≤ nr.year_built ∧ nr.year_built ≤ 2024 ∧
     0 ≤ nr.bedrooms ∧ 0 ≤ nr.bathrooms) := by
  constructor
  · obtain ⟨info, hmem, hb⟩ := generate_ok_inv h₁
    obtain ⟨-, -, -, -, hbed, hbath, hyear, hschool, -⟩ := buildRecord_ok_inv hb
    refine ⟨?_, ?_, ?_, ?_, ?_, ?_⟩
    · rw [hschool]
      exact le_max_left _ _
    · rw [hschool]
      exact max_le (by norm_num) (min_le_left _ _)
    · rw [hyear]
      exact le_min (by norm_num) (by omega)
    · rw [hyear]
      exact min_le_left _ _
    · rw [hbed]
      omega
    · rw [hbath]
      omega
  · unfold load_all_properties at h₂
    obtain ⟨prop, -, rfl⟩ := List.mem_map.mp h₂
    dsimp only
    refine ⟨?_, ?_, ?_, ?_, ?_, ?_⟩
    · unfold _generate_school_rating
      dsimp only
      exact le_min (by norm_num) (le_max_left _ _)
    · unfold _generate_school_rating
      dsimp only
      exact min_le_left _ _
    · unfold _generate_year_built
      dsimp only
      exact le_min (by norm_num) (le_max_left _ _)
    · unfold _generate_year_built
      dsimp only
      exact min_le_left _ _
    · cases hfr : rowById FeatRow.id features prop.id with
      | none => norm_num
      | some fr => simpa using (hrow fr (rowById_mem hfr)).1
    · cases hfr : rowById FeatRow.id features prop.id with
      | none => norm_num
      | some fr => simpa using (hrow fr (rowById_mem hfr)).2

/-- C8 witness: the range invariants at the generated record for "ab" and
at the normalized record of the three sample rows. -/
theorem claim_C8_ranges_witness :
    (1 ≤ abRecord.school_rating ∧ abRecord.school_rating ≤ 10 ∧
     1960 ≤ abRecord.year_built ∧ abRecord.year_built ≤ 2024 ∧
     1 ≤ abRecord.bedrooms ∧ 1 ≤ abRecord.bathrooms) ∧
    (1 ≤ nRecord0.school_rating ∧ nRecord0.school_rating ≤ 10 ∧
     1950 ≤ nRecord0.year_built ∧ nRecord0.year_built ≤ 2024 ∧
     0 ≤ nRecord0.bedrooms ∧ 0 ≤ nRecord0.bathrooms) :=
  claim_C8_ranges stdOrder (strCodes "ab") abRecord (by decide)
    [basicRow0] [featRow0] [imgRow0] (by decide) nRecord0 (by decide)

end PriceComparer
